import Mathlib

/-!
# Verification of the studentnextools frontend logic

Shallow embedding of the notes-writer page (`NotesWriter`), the GitHub
profile page (`GitHubProfile`) and the session-storage form-state model,
with theorems settling the frozen claims about the repository.

External effects are made explicit:
* the generative-model API is an oracle `gen : Nat → String → Except String String`
  mapping the index of the call and the prompt to either the returned text
  or the thrown error message;
* toast notifications are accumulated in a list on the component state;
* the issued network calls are recorded as an event trace.
-/

/-- The notes-writer form data (`interface FormData` in NotesWriter). -/
structure FormData where
  unitTitle : String
  topics : String
deriving Repr, DecidableEq

/-- One generated topic (`interface TopicContent` in NotesWriter). -/
structure TopicContent where
  topic : String
  content : String
deriving Repr, DecidableEq

/-- Variant passed to the `toast` helper. -/
inductive ToastVariant where
  | destructive
  | default
deriving Repr, DecidableEq

/-- One `toast({...})` invocation: its title, description and variant. -/
structure Toast where
  title : String
  description : String
  variant : ToastVariant
deriving Repr, DecidableEq

instance {α β : Type} [DecidableEq α] [DecidableEq β] : DecidableEq (Except α β) := fun a b =>
  match a, b with
  | .ok x, .ok y =>
      if h : x = y then isTrue (congrArg _ h)
      else isFalse (fun hh => h (Except.ok.inj hh))
  | .error x, .error y =>
      if h : x = y then isTrue (congrArg _ h)
      else isFalse (fun hh => h (Except.error.inj hh))
  | .ok _, .error _ => isFalse (fun hh => Except.noConfusion hh)
  | .error _, .ok _ => isFalse (fun hh => Except.noConfusion hh)

/-- Events of the run: issuing a generation call (`model.generateContent(prompt)`)
and its completion with either the text of the response or an error. -/
inductive GenEvent where
  | issue (prompt : String)
  | complete (prompt : String) (result : Except String String)
deriving Repr, DecidableEq

/-- JS `String.prototype.includes` restricted to what the code uses:
`errorMessage.includes('API key')`. -/
def stringIncludes (s pat : String) : Bool :=
  go s.data pat.data
where
  go : List Char → List Char → Bool
    | l, pat => pat.isPrefixOf l || match l with
        | [] => false
        | _ :: t => go t pat

/-- JS `String.prototype.split` with a single-character separator:
splits at every occurrence of the separator; the empty string yields `[""]`. -/
def jsSplit (sep : Char) : List Char → List (List Char)
  | [] => [[]]
  | c :: rest =>
    match jsSplit sep rest with
    | [] => [[]]
    | g :: gs => if c = sep then [] :: g :: gs else (c :: g) :: gs

/-- The characters JS `String.prototype.trim` removes (ECMAScript WhiteSpace
and LineTerminator code points). -/
def jsIsWhitespace (c : Char) : Bool :=
  c.toNat = 9 ∨ c.toNat = 10 ∨ c.toNat = 11 ∨ c.toNat = 12 ∨ c.toNat = 13 ∨
  c.toNat = 32 ∨ c.toNat = 0xa0 ∨ c.toNat = 0x1680 ∨
  (0x2000 ≤ c.toNat ∧ c.toNat ≤ 0x200a) ∨
  c.toNat = 0x2028 ∨ c.toNat = 0x2029 ∨ c.toNat = 0x202f ∨
  c.toNat = 0x205f ∨ c.toNat = 0x3000 ∨ c.toNat = 0xfeff

/-- JS `String.prototype.trim`: strip leading and trailing whitespace. -/
def jsTrim (l : List Char) : List Char :=
  ((l.dropWhile jsIsWhitespace).reverse.dropWhile jsIsWhitespace).reverse

/-- Line 108 of NotesWriter:
`formData.topics.split(',').map(topic => topic.trim()).filter(Boolean)`. -/
def splitTopics (s : String) : List String :=
  (((jsSplit ',' s.data).map (fun l => String.mk (jsTrim l))).filter (fun t => t ≠ ""))

/-- The anonymous context type `{ unitTitle: string }` of `generateTopicPrompt`. -/
structure UnitContext where
  unitTitle : String
deriving Repr, DecidableEq

/-- `generateTopicPrompt` of NotesWriter: the prompt template interpolating
the topic and the unit title. -/
def generateTopicPrompt (topic : String) (context : UnitContext) : String :=
  let unitTitle := context.unitTitle
  "Generate comprehensive study notes for the topic \"" ++ topic ++
  "\" within the unit \"" ++ unitTitle ++ "\".\n" ++
  "Use markdown formatting for better readability and structure.\n\n" ++
  "Please provide detailed, well-structured content that includes:\n" ++
  "1. A brief overview of the topic\n" ++
  "2. Key concepts and principles\n" ++
  "3. Examples and illustrations where applicable\n" ++
  "4. Important points to remember\n" ++
  "5. Common misconceptions or challenges\n" ++
  "6. Practice questions or exercises (if relevant)\n\n" ++
  "Format the content using markdown with:\n" ++
  "1. Clear headings using ### for sub-topics\n" ++
  "2. Bullet points and numbered lists where appropriate\n" ++
  "3. **Bold** and *italic* text for emphasis\n" ++
  "4. Code blocks with proper syntax highlighting (if needed)\n" ++
  "5. Tables where relevant\n" ++
  "6. > Blockquotes for important notes or definitions\n\n" ++
  "Structure your response with these sections:\n" ++
  "### Overview\n[Brief overview of the topic]\n\n" ++
  "### Key Concepts\n[Explanation of main concepts]\n\n" ++
  "### Examples\n[Practical examples]\n\n" ++
  "### Important Points\n[Key takeaways]\n\n" ++
  "If applicable, also include:\n" ++
  "### Common Misconceptions\n### Practice Questions\n\n" ++
  "DO NOT include a heading for the topic itself, as I will add it separately.\n" ++
  "Start directly with the content."

/-- The `toast` shown when unit title or topics is missing. -/
def missingInfoToast : Toast :=
  ⟨"Missing Information", "Please enter both unit title and topics.", .destructive⟩

/-- The `toast` shown when the error message mentions the API key. -/
def invalidApiKeyToast : Toast :=
  ⟨"Invalid API Key", "Please check your Gemini API key and try again.", .destructive⟩

/-- The `toast` shown for any other generation failure. -/
def generationFailedToast : Toast :=
  ⟨"Generation Failed", "Failed to generate notes. Please try again.", .destructive⟩

/-- The React component state of NotesWriter that `handleSubmit` reads and
writes, with the toast notifications accumulated explicitly. -/
structure NotesWriterState where
  geminiKey : Option String
  formData : FormData
  generatedNotes : String
  topicContents : List TopicContent
  isLoading : Bool
  showLoadingModal : Bool
  currentSection : Option String
  completedSections : List String
  showSuccessModal : Bool
  showApiKeyModal : Bool
  toasts : List Toast
deriving Repr, DecidableEq

/-- Accumulator of the `for (const topic of topics)` loop: the local
`allContent` and `newTopicContents` arrays, the component state, and the
trace of generation calls. -/
structure LoopAcc where
  allContent : List String
  newTopicContents : List TopicContent
  state : NotesWriterState
  events : List GenEvent
deriving Repr, DecidableEq

/-- One iteration of the loop body (lines 117-161 of NotesWriter): set the
current section, issue the generation call for the topic, and on success
push the markdown fragment, the topic content and the completed section,
or on failure show the corresponding toast. `i` is the index of the call,
fed to the oracle. -/
def processTopic (gen : Nat → String → Except String String) (unitTitle : String)
    (i : Nat) (topic : String) (acc : LoopAcc) : LoopAcc :=
  let st := { acc.state with currentSection := some topic }
  let prompt := generateTopicPrompt topic ⟨unitTitle⟩
  match gen i prompt with
  | .ok content =>
      { allContent := acc.allContent ++ ["\n\n## " ++ topic ++ "\n\n" ++ content]
        newTopicContents := acc.newTopicContents ++ [⟨topic, content⟩]
        state := { st with completedSections := st.completedSections ++ [topic] }
        events := acc.events ++ [.issue prompt, .complete prompt (.ok content)] }
  | .error msg =>
      let st' :=
        if stringIncludes msg "API key" then
          { st with toasts := st.toasts ++ [invalidApiKeyToast], showApiKeyModal := true }
        else
          { st with toasts := st.toasts ++ [generationFailedToast] }
      { acc with state := st'
                 events := acc.events ++ [.issue prompt, .complete prompt (.error msg)] }

/-- The sequential loop over the (indexed) topics: each call is awaited, so
the next topic is processed only after the previous call completed. -/
def runTopics (gen : Nat → String → Except String String) (unitTitle : String) :
    List (Nat × String) → LoopAcc → LoopAcc
  | [], acc => acc
  | (i, t) :: rest, acc => runTopics gen unitTitle rest (processTopic gen unitTitle i t acc)

/-- `handleSubmit` of NotesWriter (lines 85-182): guards for the API key and
the two form fields, then the sequential generation loop, then the final
state updates and the success modal. Returns the new component state and
the trace of generation calls. -/
def handleSubmit (gen : Nat → String → Except String String)
    (s : NotesWriterState) : NotesWriterState × List GenEvent :=
  match s.geminiKey with
  | none => ({ s with showApiKeyModal := true }, [])
  | some _ =>
    if s.formData.unitTitle = "" ∨ s.formData.topics = "" then
      ({ s with toasts := s.toasts ++ [missingInfoToast] }, [])
    else
      let s1 := { s with isLoading := true, showLoadingModal := true,
                         topicContents := [], completedSections := [],
                         generatedNotes := "" }
      let topics := splitTopics s.formData.topics
      let acc0 : LoopAcc :=
        { allContent := ["# " ++ s.formData.unitTitle ++ "\n"]
          newTopicContents := []
          state := s1
          events := [] }
      let acc := runTopics gen s.formData.unitTitle topics.enum acc0
      let s2 := { acc.state with
                  generatedNotes := String.join acc.allContent
                  topicContents := acc.newTopicContents
                  showSuccessModal := true
                  isLoading := false
                  showLoadingModal := false
                  currentSection := none }
      (s2, acc.events)

/-- The message of the success modal (line 519 of NotesWriter), a function of
the number of stored topic contents. -/
def successModalMessage (s : NotesWriterState) : String :=
  "Your study notes have been successfully generated with " ++
  toString s.topicContents.length ++ " topics."

/-! ### Specification-side views of the loop -/

/-- The markdown fragment appended for a successful topic. -/
def topicFragment (tc : TopicContent) : String :=
  "\n\n## " ++ tc.topic ++ "\n\n" ++ tc.content

/-- The successful topics with their contents, in input order. -/
def pairSuccesses (gen : Nat → String → Except String String) (unitTitle : String)
    (l : List (Nat × String)) : List TopicContent :=
  l.filterMap fun it =>
    match gen it.1 (generateTopicPrompt it.2 ⟨unitTitle⟩) with
    | .ok c => some ⟨it.2, c⟩
    | .error _ => none

/-- The expected event trace: for each topic in order, one issued call
immediately followed by its completion. -/
def pairTrace (gen : Nat → String → Except String String) (unitTitle : String)
    (l : List (Nat × String)) : List GenEvent :=
  l.flatMap fun it =>
    [GenEvent.issue (generateTopicPrompt it.2 ⟨unitTitle⟩),
     GenEvent.complete (generateTopicPrompt it.2 ⟨unitTitle⟩)
       (gen it.1 (generateTopicPrompt it.2 ⟨unitTitle⟩))]

/-- The toasts produced by the failed topics, in input order. -/
def pairFailToasts (gen : Nat → String → Except String String) (unitTitle : String)
    (l : List (Nat × String)) : List Toast :=
  l.filterMap fun it =>
    match gen it.1 (generateTopicPrompt it.2 ⟨unitTitle⟩) with
    | .ok _ => none
    | .error msg =>
        some (if stringIncludes msg "API key" then invalidApiKeyToast
              else generationFailedToast)

/-! ### GitHubProfile page -/

/-- The GitHub-profile form data (the `formData` record of `GitHubProfile`,
lines 12-24). -/
structure GHFormData where
  title : String
  subtitle : String
  programmingSkills : String
  frontendSkills : String
  backendSkills : String
  databaseSkills : String
  softwareSkills : String
  work : String
  projects : String
  githubLink : String
  leetcodeLink : String
deriving Repr, DecidableEq

/-- `generatePrompt` of GitHubProfile (lines 29-53). -/
def generatePrompt (data : GHFormData) : String :=
  "Create a professional GitHub profile README.md with the following information:\n\n" ++
  "Title: " ++ data.title ++ "\n" ++
  "Subtitle: " ++ data.subtitle ++ "\n\n" ++
  "Skills:\n" ++
  "- Programming Languages: " ++ data.programmingSkills ++ "\n" ++
  "- Frontend: " ++ data.frontendSkills ++ "\n" ++
  "- Backend: " ++ data.backendSkills ++ "\n" ++
  "- Databases: " ++ data.databaseSkills ++ "\n" ++
  "- Software & Tools: " ++ data.softwareSkills ++ "\n\n" ++
  "Work Experience:\n" ++ data.work ++ "\n\n" ++
  "Projects:\n" ++ data.projects ++ "\n\n" ++
  "Social Links:\n" ++
  "- GitHub: " ++ data.githubLink ++ "\n" ++
  "- LeetCode: " ++ data.leetcodeLink ++ "\n\n" ++
  "Please format it beautifully with markdown, including appropriate emojis, badges, and sections. Make it visually appealing and professional."

/-! ### Session-persisted form state -/

/-- Modelled from the spec: the `useSessionStorage` hook (implemented in
`src/lib/useSessionStorage`, whose source is not part of the repository
snapshot) provides state "persisted across page reloads within a browser
session" — the hook initialises its state from the value stored in the
browser session under its key, falling back to the given initial value,
and writes every update back to the session under its key. The session
store is modelled per key, holding the typed value or nothing. -/
structure SessionStore where
  notesWriterForm : Option FormData
  notesWriterGenerated : Option String
  notesWriterTopics : Option (List TopicContent)
deriving Repr, DecidableEq

/-- The initial value of `useSessionStorage('notes-writer-form', ...)`
(lines 29-32 of NotesWriter). -/
def notesWriterFormInit : FormData := ⟨"", ""⟩

/-- Mounting the NotesWriter page (a page load): the form state is the
session-stored value under `notes-writer-form`, or the initial value. -/
def notesWriterMountForm (st : SessionStore) : FormData :=
  (st.notesWriterForm).getD notesWriterFormInit

/-- `setFormData` on the NotesWriter page: the new state is also written
back to the session store. -/
def notesWriterSetForm (st : SessionStore) (v : FormData) : FormData × SessionStore :=
  (v, { st with notesWriterForm := some v })

/-- The `useState` initial value of the GitHubProfile form (lines 12-24). -/
def ghFormInit : GHFormData := ⟨"", "", "", "", "", "", "", "", "", "", ""⟩

/-- Mounting the GitHubProfile page: `useState` keeps its state in memory
only, so every mount starts from the initial record and the browser session
store is not consulted. -/
def ghMountForm (_st : SessionStore) : GHFormData := ghFormInit

/-- `setFormData` on the GitHubProfile page: updates the in-memory state
and leaves the session store untouched. -/
def ghSetForm (st : SessionStore) (v : GHFormData) : GHFormData × SessionStore :=
  (v, st)

/-! ### JSON string literals (`JSON.stringify` / `JSON.parse` on strings) -/

/-- The lowercase hexadecimal digit for `n < 16`. -/
def hexDigitChar (n : Nat) : Char :=
  if n < 10 then Char.ofNat (48 + n) else Char.ofNat (87 + n)

/-- How `JSON.stringify` escapes one character of a string. -/
def jsonEscapeChar (c : Char) : List Char :=
  if c = '"' then ['\\', '"']
  else if c = '\\' then ['\\', '\\']
  else if c.toNat = 8 then ['\\', 'b']
  else if c.toNat = 9 then ['\\', 't']
  else if c.toNat = 10 then ['\\', 'n']
  else if c.toNat = 12 then ['\\', 'f']
  else if c.toNat = 13 then ['\\', 'r']
  else if c.toNat < 32 then
    ['\\', 'u', '0', '0', hexDigitChar (c.toNat / 16), hexDigitChar (c.toNat % 16)]
  else [c]

/-- `JSON.stringify` applied to a string: the JSON string literal. -/
def jsonStringify (s : String) : String :=
  ⟨'"' :: (s.data.flatMap jsonEscapeChar ++ ['"'])⟩

/-- The numeric value of one hexadecimal digit, if any. -/
def hexVal (c : Char) : Option Nat :=
  if 48 ≤ c.toNat ∧ c.toNat ≤ 57 then some (c.toNat - 48)
  else if 97 ≤ c.toNat ∧ c.toNat ≤ 102 then some (c.toNat - 87)
  else if 65 ≤ c.toNat ∧ c.toNat ≤ 70 then some (c.toNat - 55)
  else none

/-- Decode the body of a JSON string literal (everything after the opening
quote): the decoded characters, provided the literal is well formed and
nothing follows the closing quote. Escapes denoting surrogate code points
are rejected (the model's strings hold Unicode scalar values only). -/
def parseJsonBody : List Char → Option (List Char)
  | [] => none
  | c :: rest =>
    if c = '"' then
      match rest with
      | [] => some []
      | _ :: _ => none
    else if c = '\\' then
      match rest with
      | [] => none
      | e :: rest2 =>
        if e = '"' then (parseJsonBody rest2).map (fun l => '"' :: l)
        else if e = '\\' then (parseJsonBody rest2).map (fun l => '\\' :: l)
        else if e = '/' then (parseJsonBody rest2).map (fun l => '/' :: l)
        else if e = 'b' then (parseJsonBody rest2).map (fun l => Char.ofNat 8 :: l)
        else if e = 'f' then (parseJsonBody rest2).map (fun l => Char.ofNat 12 :: l)
        else if e = 'n' then (parseJsonBody rest2).map (fun l => Char.ofNat 10 :: l)
        else if e = 'r' then (parseJsonBody rest2).map (fun l => Char.ofNat 13 :: l)
        else if e = 't' then (parseJsonBody rest2).map (fun l => Char.ofNat 9 :: l)
        else if e = 'u' then
          match rest2 with
          | h1 :: h2 :: h3 :: h4 :: rest3 =>
            match hexVal h1, hexVal h2, hexVal h3, hexVal h4 with
            | some a, some b, some c2, some d =>
              let n := ((a * 16 + b) * 16 + c2) * 16 + d
              if n < 0xd800 ∨ (0xdfff < n ∧ n < 0x110000) then
                (parseJsonBody rest3).map (fun l => Char.ofNat n :: l)
              else none
            | _, _, _, _ => none
          | _ => none
        else none
    else (parseJsonBody rest).map (fun l => c :: l)

/-- `JSON.parse` of a complete JSON string literal. -/
def parseJsonLiteral (s : String) : Option String :=
  match s.data with
  | c :: rest => if c = '"' then (parseJsonBody rest).map String.mk else none
  | _ => none

/-! ### The preview document (`handlePreviewInNewTab`, lines 185-460) -/

/-- The copy control of the preview document. -/
def previewCopyButton : String :=
  "<button id=\"copyBtn\" class=\"btn\">"

/-- The print control of the preview document. -/
def previewPrintButton : String :=
  "<button id=\"printBtn\" class=\"btn\">"

/-- The copy command executed by the copy control handler. -/
def previewExecCopy : String :=
  "document.execCommand(\x27copy\x27);"

/-- The print call executed by the print control handler. -/
def previewWindowPrint : String :=
  "window.print();"

/-- The preview document up to the interpolated title. -/
def previewDocPart1 : String :=
  "\n        <html>\n          <head>\n            <meta charset=\"UTF-8\">\n            <met" ++
  "a name=\"viewport\" content=\"width=device-width, initial-scale=1.0, maximum-scale=1.0, us" ++
  "er-scalable=no\">\n            <title>"

/-- The preview document between the title and the copy control. -/
def previewDocPart2a : String :=
  "</title>\n            <link rel=\"stylesheet\" href=\"https://cdnjs.cloudflare.com/ajax/li" ++
  "bs/github-markdown-css/5.2.0/github-markdown.min.css\">\n            <link rel=\"styleshee" ++
  "t\" href=\"https://cdnjs.cloudflare.com/ajax/libs/font-awesome/6.4.0/css/all.min.css\">\n " ++
  "           <style>\n              body \x7b\n                background-color: #ffffff;\n " ++
  "               margin: 0;\n                padding: 0;\n                color: #24292e;\n " ++
  "               font-family: -apple-system, BlinkMacSystemFont, \"Segoe UI\", Helvetica, Ar" ++
  "ial, sans-serif;\n                line-height: 1.6;\n              \x7d\n              .co" ++
  "ntrol-bar \x7b\n                position: sticky;\n                top: 0;\n              " ++
  "  background-color: #f6f8fa;\n                border-bottom: 1px solid #e1e4e8;\n         " ++
  "       padding: 12px 16px;\n                display: flex;\n                justify-conten" ++
  "t: space-between;\n                align-items: center;\n                z-index: 100;\n  " ++
  "              box-shadow: 0 1px 2px rgba(0,0,0,0.1);\n              \x7d\n              .i" ++
  "nstruction \x7b\n                font-size: 14px;\n                color: #57606a;\n      " ++
  "          margin-right: 10px;\n              \x7d\n              .buttons \x7b\n          " ++
  "      display: flex;\n                gap: 8px;\n              \x7d\n              .btn " ++
  "\x7b\n                display: inline-flex;\n                align-items: center;\n       " ++
  "         justify-content: center;\n                gap: 6px;\n                background-c" ++
  "olor: #ffffff;\n                border: 1px solid #d1d5da;\n                border-radius:" ++
  " 6px;\n                padding: 6px 12px;\n                font-size: 14px;\n             " ++
  "   font-weight: 500;\n                color: #24292e;\n                cursor: pointer;\n " ++
  "               transition: all 0.2s;\n              \x7d\n              .btn:hover \x7b\n " ++
  "               background-color: #f3f4f6;\n              \x7d\n              .btn i \x7b\n" ++
  "                font-size: 14px;\n              \x7d\n              .btn-success \x7b\n   " ++
  "             background-color: #2ea44f;\n                color: white;\n                bo" ++
  "rder-color: #2ea44f;\n              \x7d\n              .btn-success:hover \x7b\n         " ++
  "       background-color: #2c974b;\n              \x7d\n              .markdown-body \x7b\n" ++
  "                box-sizing: border-box;\n                min-width: 200px;\n              " ++
  "  max-width: 980px;\n                margin: 0 auto;\n                padding: 45px;\n    " ++
  "            background-color: #ffffff;\n                color: #24292e;\n                b" ++
  "order: 1px solid #e1e4e8;\n                border-radius: 6px;\n                margin-top" ++
  ": 20px;\n                margin-bottom: 40px;\n              \x7d\n              .markdown" ++
  "-body h1, \n              .markdown-body h2, \n              .markdown-body h3, \n        " ++
  "      .markdown-body h4, \n              .markdown-body h5, \n              .markdown-body" ++
  " h6,\n              .markdown-body p,\n              .markdown-body li,\n              .ma" ++
  "rkdown-body a,\n              .markdown-body code,\n              .markdown-body blockquot" ++
  "e \x7b\n                color: #24292e;\n              \x7d\n              .markdown-body " ++
  "pre \x7b\n                background-color: #f6f8fa;\n              \x7d\n              .m" ++
  "arkdown-body code \x7b\n                background-color: #f6f8fa;\n                color:" ++
  " #24292e;\n                word-wrap: break-word;\n                white-space: pre-wrap;" ++
  "\n              \x7d\n              .markdown-body table \x7b\n                border-coll" ++
  "apse: collapse;\n                display: block;\n                width: 100%;\n          " ++
  "      overflow-x: auto;\n              \x7d\n              .markdown-body table th,\n     " ++
  "         .markdown-body table td \x7b\n                border: 1px solid #e1e4e8;\n       " ++
  "         padding: 6px 13px;\n              \x7d\n              .markdown-body table tr " ++
  "\x7b\n                background-color: #ffffff;\n                border-top: 1px solid #e" ++
  "1e4e8;\n              \x7d\n              .markdown-body table tr:nth-child(2n) \x7b\n    " ++
  "            background-color: #f6f8fa;\n              \x7d\n              .markdown-body i" ++
  "mg \x7b\n                max-width: 100%;\n                height: auto;\n                " ++
  "display: block;\n                margin: 1rem auto;\n              \x7d\n              .ma" ++
  "rkdown-body blockquote \x7b\n                border-left: 4px solid #dfe2e5;\n            " ++
  "    padding: 0 1em;\n                color: #6a737d;\n              \x7d\n              @m" ++
  "edia (max-width: 767px) \x7b\n                .markdown-body \x7b\n                  paddi" ++
  "ng: 20px;\n                  margin: 10px;\n                  border-radius: 4px;\n       " ++
  "           font-size: 16px;\n                  width: auto;\n                \x7d\n       " ++
  "         .markdown-body h1 \x7b\n                  font-size: 1.8rem;\n                  w" ++
  "ord-break: break-word;\n                \x7d\n                .markdown-body h2 \x7b\n    " ++
  "              font-size: 1.5rem;\n                \x7d\n                .markdown-body h3 " ++
  "\x7b\n                  font-size: 1.3rem;\n                \x7d\n                .markdow" ++
  "n-body pre \x7b\n                  padding: 12px;\n                  border-radius: 4px;\n" ++
  "                \x7d\n                .control-bar \x7b\n                  padding: 10px;" ++
  "\n                  flex-direction: column;\n                  align-items: flex-start;\n " ++
  "               \x7d\n                .instruction \x7b\n                  font-size: 13px;" ++
  "\n                  margin-bottom: 10px;\n                  width: 100%;\n                " ++
  "\x7d\n                .buttons \x7b\n                  width: 100%;\n                  jus" ++
  "tify-content: space-between;\n                \x7d\n                .btn \x7b\n           " ++
  "       padding: 8px 12px;\n                  font-size: 14px;\n                  flex: 1;" ++
  "\n                  justify-content: center;\n                \x7d\n                .btn i" ++
  " \x7b\n                  margin-right: 4px;\n                \x7d\n              \x7d\n   " ++
  "           /* Override any dark mode settings */\n              html, body \x7b\n         " ++
  "       background-color: #ffffff !important;\n                color: #24292e !important;\n" ++
  "              \x7d\n              /* Hide control bar when printing */\n              @med" ++
  "ia print \x7b\n                .control-bar \x7b\n                  display: none !importa" ++
  "nt;\n                \x7d\n                .markdown-body \x7b\n                  margin-t" ++
  "op: 0;\n                  padding-top: 0;\n                  border: none;\n              " ++
  "    max-width: 100%;\n                \x7d\n                body \x7b\n                  b" ++
  "ackground-color: white;\n                  -webkit-print-color-adjust: exact;\n           " ++
  "       print-color-adjust: exact;\n                \x7d\n              \x7d\n            <" ++
  "/style>\n          </head>\n          <body>\n            <div class=\"control-bar\">\n   " ++
  "           <div class=\"instruction\">\n                <i class=\"fas fa-info-circle\"></" ++
  "i> Copy and paste this in Google Docs or Word to preserve formatting. Google Docs is recom" ++
  "mended.\n              </div>\n              <div class=\"buttons\">\n                "

/-- The preview document between the copy and print controls. -/
def previewDocPart2b : String :=
  "\n                  <i class=\"fas fa-copy\"></i> Copy\n                </button>\n       " ++
  "         "

/-- The preview document between the print control and the embedded markdown literal. -/
def previewDocPart2c : String :=
  "\n                  <i class=\"fas fa-download\"></i> Download\n                </button>" ++
  "\n              </div>\n            </div>\n            <div class=\"markdown-body\">\n   " ++
  "           <div id=\"content\"></div>\n            </div>\n            <script src=\"https" ++
  "://cdn.jsdelivr.net/npm/marked/marked.min.js\"></script>\n            <script>\n          " ++
  "    // Parse and render markdown\n              marked.setOptions(\x7b\n                br" ++
  "eaks: true,\n                gfm: true\n              \x7d);\n              const markdown" ++
  "Content = "

/-- The preview document between the markdown literal and the copy command. -/
def previewDocPart3a : String :=
  ";\n              document.getElementById(\x27content\x27).innerHTML = marked.parse(markdow" ++
  "nContent);\n              \n              // Copy button functionality - copy the rendered" ++
  " HTML content\n              document.getElementById(\x27copyBtn\x27).addEventListener(" ++
  "\x27click\x27, async () => \x7b\n                try \x7b\n                  // Get the re" ++
  "ndered HTML content\n                  const contentElement = document.querySelector(\x27." ++
  "markdown-body\x27);\n                  \n                  // Create a range and selection" ++
  "\n                  const range = document.createRange();\n                  range.selectN" ++
  "ode(contentElement);\n                  \n                  // Select the content\n       " ++
  "           const selection = window.getSelection();\n                  selection.removeAll" ++
  "Ranges();\n                  selection.addRange(range);\n                  \n             " ++
  "     // Execute copy command\n                  "

/-- The preview document between the copy command and the print call. -/
def previewDocPart3b : String :=
  "\n                  \n                  // Clear selection\n                  selection.re" ++
  "moveAllRanges();\n                  \n                  // Update button to show success\n" ++
  "                  const btn = document.getElementById(\x27copyBtn\x27);\n                 " ++
  " btn.innerHTML = \x27<i class=\"fas fa-check\"></i> Copied!\x27;\n                  btn.cl" ++
  "assList.add(\x27btn-success\x27);\n                  setTimeout(() => \x7b\n              " ++
  "      btn.innerHTML = \x27<i class=\"fas fa-copy\"></i> Copy\x27;\n                    btn" ++
  ".classList.remove(\x27btn-success\x27);\n                  \x7d, 2000);\n                " ++
  "\x7d catch (err) \x7b\n                  console.error(\x27Failed to copy content:\x27, er" ++
  "r);\n                \x7d\n              \x7d);\n              \n              // Print bu" ++
  "tton functionality (renamed to Download but keeps print functionality)\n              docu" ++
  "ment.getElementById(\x27printBtn\x27).addEventListener(\x27click\x27, () => \x7b\n        " ++
  "        "

/-- The tail of the preview document after the print call. -/
def previewDocPart3c : String :=
  "\n              \x7d);\n            </script>\n          </body>\n        </html>\n      "

/-- The static HTML document string written to the new browser window
(lines 188-457 of NotesWriter), assembled from the template pieces, the
interpolated title (`formData.unitTitle || 'Study Notes Preview'`) and the
embedded markdown as a JSON string literal
(`const markdownContent = ${JSON.stringify(generatedNotes)};`). -/
def previewDocument (unitTitle generatedNotes : String) : String :=
  previewDocPart1 ++
  (if unitTitle = "" then "Study Notes Preview" else unitTitle) ++
  previewDocPart2a ++ previewCopyButton ++ previewDocPart2b ++ previewPrintButton ++
  previewDocPart2c ++ jsonStringify generatedNotes ++
  previewDocPart3a ++ previewExecCopy ++ previewDocPart3b ++ previewWindowPrint ++
  previewDocPart3c

/-- `handlePreviewInNewTab`: the document written for the current component
state. -/
def handlePreviewInNewTab (s : NotesWriterState) : String :=
  previewDocument s.formData.unitTitle s.generatedNotes

/-! ### Loop characterization -/

theorem join_cons (a : String) (l : List String) :
    String.join (a :: l) = a ++ String.join l := by
  apply String.ext
  simp [String.join_eq, String.data_append]

theorem runTopics_allContent (gen : Nat → String → Except String String) (u : String)
    (l : List (Nat × String)) (acc : LoopAcc) :
    (runTopics gen u l acc).allContent =
      acc.allContent ++ (pairSuccesses gen u l).map topicFragment := by
  induction l generalizing acc with
  | nil => simp [runTopics, pairSuccesses]
  | cons it rest ih =>
    obtain ⟨i, t⟩ := it
    rw [runTopics, ih]
    cases hg : gen i (generateTopicPrompt t ⟨u⟩) with
    | ok c => simp [processTopic, pairSuccesses, topicFragment, hg]
    | error m => simp [processTopic, pairSuccesses, hg]

theorem runTopics_newTopicContents (gen : Nat → String → Except String String) (u : String)
    (l : List (Nat × String)) (acc : LoopAcc) :
    (runTopics gen u l acc).newTopicContents =
      acc.newTopicContents ++ pairSuccesses gen u l := by
  induction l generalizing acc with
  | nil => simp [runTopics, pairSuccesses]
  | cons it rest ih =>
    obtain ⟨i, t⟩ := it
    rw [runTopics, ih]
    cases hg : gen i (generateTopicPrompt t ⟨u⟩) with
    | ok c => simp [processTopic, pairSuccesses, hg]
    | error m => simp [processTopic, pairSuccesses, hg]

theorem runTopics_events (gen : Nat → String → Except String String) (u : String)
    (l : List (Nat × String)) (acc : LoopAcc) :
    (runTopics gen u l acc).events = acc.events ++ pairTrace gen u l := by
  induction l generalizing acc with
  | nil => simp [runTopics, pairTrace]
  | cons it rest ih =>
    obtain ⟨i, t⟩ := it
    rw [runTopics, ih]
    cases hg : gen i (generateTopicPrompt t ⟨u⟩) with
    | ok c => simp [processTopic, pairTrace, hg]
    | error m => simp [processTopic, pairTrace, hg]

theorem runTopics_completedSections (gen : Nat → String → Except String String) (u : String)
    (l : List (Nat × String)) (acc : LoopAcc) :
    (runTopics gen u l acc).state.completedSections =
      acc.state.completedSections ++ (pairSuccesses gen u l).map TopicContent.topic := by
  induction l generalizing acc with
  | nil => simp [runTopics, pairSuccesses]
  | cons it rest ih =>
    obtain ⟨i, t⟩ := it
    rw [runTopics, ih]
    cases hg : gen i (generateTopicPrompt t ⟨u⟩) with
    | ok c => simp [processTopic, pairSuccesses, hg]
    | error m =>
      by_cases ha : stringIncludes m "API key" = true <;>
        simp [processTopic, pairSuccesses, hg, ha]

theorem runTopics_toasts (gen : Nat → String → Except String String) (u : String)
    (l : List (Nat × String)) (acc : LoopAcc) :
    (runTopics gen u l acc).state.toasts =
      acc.state.toasts ++ pairFailToasts gen u l := by
  induction l generalizing acc with
  | nil => simp [runTopics, pairFailToasts]
  | cons it rest ih =>
    obtain ⟨i, t⟩ := it
    rw [runTopics, ih]
    cases hg : gen i (generateTopicPrompt t ⟨u⟩) with
    | ok c => simp [processTopic, pairFailToasts, hg]
    | error m =>
      by_cases ha : stringIncludes m "API key" = true <;>
        simp [processTopic, pairFailToasts, hg, ha]

/-- Characterization of a run of `handleSubmit` with a present API key and
non-empty form fields: the event trace, the generated notes, the stored
topic contents, the completed sections, the toasts and the success modal. -/
theorem handleSubmit_spec (gen : Nat → String → Except String String)
    (s : NotesWriterState) (k : String)
    (hk : s.geminiKey = some k) (hu : s.formData.unitTitle ≠ "")
    (ht : s.formData.topics ≠ "") :
    (handleSubmit gen s).2 =
      pairTrace gen s.formData.unitTitle (splitTopics s.formData.topics).enum
  ∧ (handleSubmit gen s).1.generatedNotes =
      "# " ++ s.formData.unitTitle ++ "\n" ++
        String.join ((pairSuccesses gen s.formData.unitTitle
          (splitTopics s.formData.topics).enum).map topicFragment)
  ∧ (handleSubmit gen s).1.topicContents =
      pairSuccesses gen s.formData.unitTitle (splitTopics s.formData.topics).enum
  ∧ (handleSubmit gen s).1.completedSections =
      (pairSuccesses gen s.formData.unitTitle
        (splitTopics s.formData.topics).enum).map TopicContent.topic
  ∧ (handleSubmit gen s).1.toasts =
      s.toasts ++ pairFailToasts gen s.formData.unitTitle (splitTopics s.formData.topics).enum
  ∧ (handleSubmit gen s).1.showSuccessModal = true := by
  simp only [handleSubmit, hk]
  rw [if_neg (by simp [hu, ht])]
  refine ⟨?_, ?_, ?_, ?_, ?_, rfl⟩
  · simp [runTopics_events]
  · simp [runTopics_allContent, join_cons, String.append_assoc]
  · simp [runTopics_newTopicContents]
  · simp [runTopics_completedSections]
  · simp [runTopics_toasts]

/-! ### JSON string-literal round trip -/

theorem hexVal_hexDigitChar : ∀ n, n < 16 → hexVal (hexDigitChar n) = some n := by decide

theorem parseJsonBody_flatMap (l : List Char) :
    parseJsonBody (l.flatMap jsonEscapeChar ++ ['"']) = some l := by
  induction l with
  | nil => simp [parseJsonBody]
  | cons c cs ih =>
    simp only [List.flatMap_cons, List.append_assoc]
    by_cases h1 : c = '"'
    · subst h1; rw [parseJsonBody.eq_def]; simp [jsonEscapeChar, ih]
    · by_cases h2 : c = '\\'
      · subst h2; rw [parseJsonBody.eq_def]; simp [jsonEscapeChar, ih]
      · by_cases h3 : c.toNat = 8
        · have hc : c = Char.ofNat 8 := by rw [← h3, Char.ofNat_toNat]
          subst hc
          rw [jsonEscapeChar]; rw [parseJsonBody.eq_def]; simp [ih]
        · by_cases h4 : c.toNat = 9
          · have hc : c = Char.ofNat 9 := by rw [← h4, Char.ofNat_toNat]
            subst hc
            rw [jsonEscapeChar]; rw [parseJsonBody.eq_def]; simp [ih]
          · by_cases h5 : c.toNat = 10
            · have hc : c = Char.ofNat 10 := by rw [← h5, Char.ofNat_toNat]
              subst hc
              rw [jsonEscapeChar]; rw [parseJsonBody.eq_def]; simp [ih]
            · by_cases h6 : c.toNat = 12
              · have hc : c = Char.ofNat 12 := by rw [← h6, Char.ofNat_toNat]
                subst hc
                rw [jsonEscapeChar]; rw [parseJsonBody.eq_def]; simp [ih]
              · by_cases h7 : c.toNat = 13
                · have hc : c = Char.ofNat 13 := by rw [← h7, Char.ofNat_toNat]
                  subst hc
                  rw [jsonEscapeChar]; rw [parseJsonBody.eq_def]; simp [ih]
                · by_cases h8 : c.toNat < 32
                  · have hd : hexVal (hexDigitChar (c.toNat / 16)) = some (c.toNat / 16) :=
                      hexVal_hexDigitChar _ (by omega)
                    have hm : hexVal (hexDigitChar (c.toNat % 16)) = some (c.toNat % 16) :=
                      hexVal_hexDigitChar _ (by omega)
                    have hn : ((0 * 16 + 0) * 16 + c.toNat / 16) * 16 + c.toNat % 16 = c.toNat := by
                      omega
                    rw [jsonEscapeChar.eq_def]
                    rw [if_neg h1, if_neg h2, if_neg h3, if_neg h4, if_neg h5, if_neg h6,
                      if_neg h7, if_pos h8]
                    have h0 : hexVal '0' = some 0 := by decide
                    rw [parseJsonBody.eq_def]
                    simp [h0, hd, hm, hn, ih, Char.ofNat_toNat]
                    have hn2 : c.toNat / 16 * 16 + c.toNat % 16 = c.toNat := by omega
                    rw [hn2, Char.ofNat_toNat]
                    exact ⟨Or.inl (by omega), rfl⟩
                  · rw [jsonEscapeChar.eq_def]
                    rw [if_neg h1, if_neg h2, if_neg h3, if_neg h4, if_neg h5, if_neg h6,
                      if_neg h7, if_neg h8]
                    rw [List.singleton_append, parseJsonBody.eq_def]
                    simp [h1, h2, ih]

theorem parseJsonLiteral_stringify (s : String) :
    parseJsonLiteral (jsonStringify s) = some s := by
  cases s with
  | mk d => simp [parseJsonLiteral, jsonStringify, parseJsonBody_flatMap]

/-! ### Further spec-side lemmas -/

theorem pairTrace_issues (gen : Nat → String → Except String String) (u : String)
    (l : List (Nat × String)) :
    (pairTrace gen u l).filterMap (fun e =>
        match e with
        | GenEvent.issue p => some p
        | GenEvent.complete _ _ => none) =
      l.map (fun it => generateTopicPrompt it.2 ⟨u⟩) := by
  induction l with
  | nil => rfl
  | cons it rest ih =>
    simp only [pairTrace] at ih ⊢
    simp [ih]

theorem pairSuccesses_map_fragment (gen : Nat → String → Except String String) (u : String)
    (l : List (Nat × String)) :
    (pairSuccesses gen u l).map topicFragment =
      l.filterMap (fun it =>
        match gen it.1 (generateTopicPrompt it.2 ⟨u⟩) with
        | .ok c => some ("\n\n## " ++ it.2 ++ "\n\n" ++ c)
        | .error _ => none) := by
  induction l with
  | nil => rfl
  | cons it rest ih =>
    obtain ⟨i, t⟩ := it
    simp only [pairSuccesses] at ih ⊢
    cases hg : gen i (generateTopicPrompt t ⟨u⟩) with
    | ok c => simp [topicFragment, hg, ih, List.filterMap_cons]
    | error m => simp [hg, ih, List.filterMap_cons]

theorem pairSuccesses_eq_inline (gen : Nat → String → Except String String) (u : String)
    (l : List (Nat × String)) :
    pairSuccesses gen u l =
      l.filterMap (fun it =>
        match gen it.1 (generateTopicPrompt it.2 ⟨u⟩) with
        | .ok c => some (⟨it.2, c⟩ : TopicContent)
        | .error _ => none) := rfl

theorem pairFailToasts_length (gen : Nat → String → Except String String) (u : String)
    (l : List (Nat × String)) :
    (pairFailToasts gen u l).length =
      (l.filter (fun it =>
        match gen it.1 (generateTopicPrompt it.2 ⟨u⟩) with
        | .ok _ => false
        | .error _ => true)).length := by
  induction l with
  | nil => rfl
  | cons it rest ih =>
    obtain ⟨i, t⟩ := it
    simp only [pairFailToasts] at ih ⊢
    cases hg : gen i (generateTopicPrompt t ⟨u⟩) with
    | ok c => simp [hg, ih, List.filterMap_cons, List.filter_cons]
    | error m => simp [hg, ih, List.filterMap_cons, List.filter_cons]

theorem enum_map_snd_comp {α β : Type} (f : α → β) (l : List α) :
    l.enum.map (fun it => f it.2) = l.map f := by
  rw [show (fun it : Nat × α => f it.2) = f ∘ Prod.snd from rfl, ← List.map_map,
    List.enum_map_snd]

theorem pairSuccesses_map_topic (gen : Nat → String → Except String String) (u : String)
    (l : List (Nat × String)) :
    (pairSuccesses gen u l).map TopicContent.topic =
      l.filterMap (fun it =>
        match gen it.1 (generateTopicPrompt it.2 ⟨u⟩) with
        | .ok _ => some it.2
        | .error _ => none) := by
  induction l with
  | nil => rfl
  | cons it rest ih =>
    obtain ⟨i, t⟩ := it
    simp only [pairSuccesses] at ih ⊢
    cases hg : gen i (generateTopicPrompt t ⟨u⟩) with
    | ok c => simp [hg, ih, List.filterMap_cons]
    | error m => simp [hg, ih, List.filterMap_cons]

/-! ### Sample inputs used by the witnesses -/

/-- A sample filled form. -/
def sampleForm : FormData := ⟨"U", "a,b"⟩

/-- A sample component state with an API key and a filled form. -/
def sampleState : NotesWriterState :=
  ⟨some "K", sampleForm, "", [], false, false, none, [], false, false, []⟩

/-- An oracle that always succeeds with content `"c"`. -/
def genConst : Nat → String → Except String String := fun _ _ => .ok "c"

/-- An oracle that succeeds on the first call only. -/
def genMix : Nat → String → Except String String :=
  fun i _ => if i = 0 then .ok "ca" else .error "boom"

/-- An oracle that fails on the first call only. -/
def genMix2 : Nat → String → Except String String :=
  fun i _ => if i = 0 then .error "boom" else .ok "cb"

/-- An oracle that always fails. -/
def genFail : Nat → String → Except String String := fun _ _ => .error "boom"

/-! ### Claims -/

/-- C1: with an API key and non-empty fields, `handleSubmit` issues exactly
one generation call per topic of the split topics field, in input order,
each call issued only after the previous call completed (the trace is the
strict alternation issue/completion, topic by topic). -/
theorem C1_one_sequential_call_per_topic
    (gen : Nat → String → Except String String) (s : NotesWriterState) (k : String)
    (hk : s.geminiKey = some k) (hu : s.formData.unitTitle ≠ "")
    (ht : s.formData.topics ≠ "") :
    (handleSubmit gen s).2 =
      (splitTopics s.formData.topics).enum.flatMap (fun it =>
        [GenEvent.issue (generateTopicPrompt it.2 ⟨s.formData.unitTitle⟩),
         GenEvent.complete (generateTopicPrompt it.2 ⟨s.formData.unitTitle⟩)
           (gen it.1 (generateTopicPrompt it.2 ⟨s.formData.unitTitle⟩))])
  ∧ (handleSubmit gen s).2.filterMap (fun e =>
        match e with
        | GenEvent.issue p => some p
        | GenEvent.complete _ _ => none) =
      (splitTopics s.formData.topics).map
        (fun t => generateTopicPrompt t ⟨s.formData.unitTitle⟩) := by
  obtain ⟨he, -, -, -, -, -⟩ := handleSubmit_spec gen s k hk hu ht
  refine ⟨by rw [he]; rfl, ?_⟩
  rw [he, pairTrace_issues]
  exact enum_map_snd_comp (fun t => generateTopicPrompt t ⟨s.formData.unitTitle⟩)
    (splitTopics s.formData.topics)

/-- Witness for C1 at a concrete input: two topics, both calls succeed. -/
theorem C1_witness :
    sampleState.geminiKey = some "K" ∧ sampleState.formData.unitTitle ≠ "" ∧
      sampleState.formData.topics ≠ "" ∧
    ((handleSubmit genConst sampleState).2 =
        [GenEvent.issue (generateTopicPrompt "a" ⟨"U"⟩),
         GenEvent.complete (generateTopicPrompt "a" ⟨"U"⟩) (Except.ok "c"),
         GenEvent.issue (generateTopicPrompt "b" ⟨"U"⟩),
         GenEvent.complete (generateTopicPrompt "b" ⟨"U"⟩) (Except.ok "c")]
     ∧ (handleSubmit genConst sampleState).2.filterMap (fun e =>
          match e with
          | GenEvent.issue p => some p
          | GenEvent.complete _ _ => none) =
        [generateTopicPrompt "a" ⟨"U"⟩, generateTopicPrompt "b" ⟨"U"⟩]) :=
  ⟨rfl, by decide, by decide,
   C1_one_sequential_call_per_topic genConst sampleState "K" rfl (by decide) (by decide)⟩

/-- C2: the final generated notes are the title heading `"# " ++ unitTitle ++ "\n"`
followed, for each successful topic in input order, by
`"\n\n## " ++ topic ++ "\n\n" ++ content`, and the stored topic contents are
exactly the pairs of successful topics in input order. -/
theorem C2_notes_and_contents
    (gen : Nat → String → Except String String) (s : NotesWriterState) (k : String)
    (hk : s.geminiKey = some k) (hu : s.formData.unitTitle ≠ "")
    (ht : s.formData.topics ≠ "") :
    (handleSubmit gen s).1.generatedNotes =
      "# " ++ s.formData.unitTitle ++ "\n" ++
        String.join ((splitTopics s.formData.topics).enum.filterMap (fun it =>
          match gen it.1 (generateTopicPrompt it.2 ⟨s.formData.unitTitle⟩) with
          | .ok c => some ("\n\n## " ++ it.2 ++ "\n\n" ++ c)
          | .error _ => none))
  ∧ (handleSubmit gen s).1.topicContents =
      (splitTopics s.formData.topics).enum.filterMap (fun it =>
        match gen it.1 (generateTopicPrompt it.2 ⟨s.formData.unitTitle⟩) with
        | .ok c => some (⟨it.2, c⟩ : TopicContent)
        | .error _ => none) := by
  obtain ⟨-, hn, hc, -, -, -⟩ := handleSubmit_spec gen s k hk hu ht
  constructor
  · rw [hn, pairSuccesses_map_fragment]
  · rw [hc, pairSuccesses_eq_inline]

/-- Witness for C2: two topics, the first succeeds and the second fails. -/
theorem C2_witness :
    sampleState.geminiKey = some "K" ∧ sampleState.formData.unitTitle ≠ "" ∧
      sampleState.formData.topics ≠ "" ∧
    ((handleSubmit genMix sampleState).1.generatedNotes = "# U\n\n\n## a\n\nca"
     ∧ (handleSubmit genMix sampleState).1.topicContents = [⟨"a", "ca"⟩]) :=
  ⟨rfl, by decide, by decide,
   C2_notes_and_contents genMix sampleState "K" rfl (by decide) (by decide)⟩

/-- C3: a failing generation call does not abort the run — every topic
(including every one after the failing topic) still gets its call issued,
and every successful topic's pair still ends up in the stored topic
contents. -/
theorem C3_failure_does_not_abort
    (gen : Nat → String → Except String String) (s : NotesWriterState) (k : String)
    (j : Nat) (m : String)
    (hk : s.geminiKey = some k) (hu : s.formData.unitTitle ≠ "")
    (ht : s.formData.topics ≠ "")
    (hj : j < (splitTopics s.formData.topics).length)
    (hfail : gen j (generateTopicPrompt (splitTopics s.formData.topics)[j]
        ⟨s.formData.unitTitle⟩) = .error m) :
    (∀ (i : Nat) (hi : i < (splitTopics s.formData.topics).length),
        GenEvent.issue (generateTopicPrompt (splitTopics s.formData.topics)[i]
          ⟨s.formData.unitTitle⟩) ∈ (handleSubmit gen s).2)
  ∧ (∀ (i : Nat) (hi : i < (splitTopics s.formData.topics).length) (c : String),
        gen i (generateTopicPrompt (splitTopics s.formData.topics)[i]
          ⟨s.formData.unitTitle⟩) = .ok c →
        (⟨(splitTopics s.formData.topics)[i], c⟩ : TopicContent) ∈
          (handleSubmit gen s).1.topicContents) := by
  obtain ⟨he, -, hc, -, -, -⟩ := handleSubmit_spec gen s k hk hu ht
  constructor
  · intro i hi
    rw [he]
    have hmem : (i, (splitTopics s.formData.topics)[i]) ∈
        (splitTopics s.formData.topics).enum := by
      have hg := List.getElem_enum (splitTopics s.formData.topics) i
        (by simpa [List.enum_length] using hi)
      exact hg ▸ List.getElem_mem _
    exact List.mem_flatMap.mpr ⟨_, hmem, by simp [pairTrace]⟩
  · intro i hi c hgc
    rw [hc, pairSuccesses_eq_inline]
    have hmem : (i, (splitTopics s.formData.topics)[i]) ∈
        (splitTopics s.formData.topics).enum := by
      have hg := List.getElem_enum (splitTopics s.formData.topics) i
        (by simpa [List.enum_length] using hi)
      exact hg ▸ List.getElem_mem _
    exact List.mem_filterMap.mpr ⟨_, hmem, by simp [hgc]⟩

/-- Witness for C3: the first topic fails, the second succeeds. -/
theorem C3_witness :
    sampleState.geminiKey = some "K" ∧ sampleState.formData.unitTitle ≠ "" ∧
      sampleState.formData.topics ≠ "" ∧
    0 < (splitTopics sampleState.formData.topics).length ∧
    genMix2 0 (generateTopicPrompt (splitTopics sampleState.formData.topics)[0]
      ⟨"U"⟩) = .error "boom" ∧
    ((∀ (i : Nat) (hi : i < (splitTopics sampleState.formData.topics).length),
        GenEvent.issue (generateTopicPrompt (splitTopics sampleState.formData.topics)[i]
          ⟨sampleState.formData.unitTitle⟩) ∈ (handleSubmit genMix2 sampleState).2)
     ∧ (∀ (i : Nat) (hi : i < (splitTopics sampleState.formData.topics).length) (c : String),
          genMix2 i (generateTopicPrompt (splitTopics sampleState.formData.topics)[i]
            ⟨sampleState.formData.unitTitle⟩) = .ok c →
          (⟨(splitTopics sampleState.formData.topics)[i], c⟩ : TopicContent) ∈
            (handleSubmit genMix2 sampleState).1.topicContents)) :=
  ⟨rfl, by decide, by decide, by decide, rfl,
   C3_failure_does_not_abort genMix2 sampleState "K" 0 "boom" rfl (by decide) (by decide)
     (by decide) rfl⟩

/-- C4: every per-topic failure is reflected in the run's resulting state —
the toast list gains exactly one destructive failure toast per failed topic,
in input order, and the completed sections are exactly the successful
topics, so each failed topic is recorded as not completed. -/
theorem C4_failures_recorded
    (gen : Nat → String → Except String String) (s : NotesWriterState) (k : String)
    (hk : s.geminiKey = some k) (hu : s.formData.unitTitle ≠ "")
    (ht : s.formData.topics ≠ "") :
    (handleSubmit gen s).1.toasts =
      s.toasts ++ (splitTopics s.formData.topics).enum.filterMap (fun it =>
        match gen it.1 (generateTopicPrompt it.2 ⟨s.formData.unitTitle⟩) with
        | .ok _ => none
        | .error msg =>
            some (if stringIncludes msg "API key" then invalidApiKeyToast
                  else generationFailedToast))
  ∧ ((splitTopics s.formData.topics).enum.filterMap (fun it =>
        match gen it.1 (generateTopicPrompt it.2 ⟨s.formData.unitTitle⟩) with
        | .ok _ => none
        | .error msg =>
            some (if stringIncludes msg "API key" then invalidApiKeyToast
                  else generationFailedToast))).length =
      ((splitTopics s.formData.topics).enum.filter (fun it =>
        match gen it.1 (generateTopicPrompt it.2 ⟨s.formData.unitTitle⟩) with
        | .ok _ => false
        | .error _ => true)).length
  ∧ (handleSubmit gen s).1.completedSections =
      (splitTopics s.formData.topics).enum.filterMap (fun it =>
        match gen it.1 (generateTopicPrompt it.2 ⟨s.formData.unitTitle⟩) with
        | .ok _ => some it.2
        | .error _ => none) := by
  obtain ⟨-, -, -, hcs, hto, -⟩ := handleSubmit_spec gen s k hk hu ht
  refine ⟨by rw [hto]; rfl, ?_, by rw [hcs, pairSuccesses_map_topic]⟩
  exact pairFailToasts_length gen s.formData.unitTitle (splitTopics s.formData.topics).enum

/-- Witness for C4: first topic fails (without an API-key message), second
succeeds — one failure toast, one completed section. -/
theorem C4_witness :
    sampleState.geminiKey = some "K" ∧ sampleState.formData.unitTitle ≠ "" ∧
      sampleState.formData.topics ≠ "" ∧
    ((handleSubmit genMix2 sampleState).1.toasts = [generationFailedToast]
     ∧ ([generationFailedToast] : List Toast).length = 1
     ∧ (handleSubmit genMix2 sampleState).1.completedSections = ["b"]) :=
  ⟨rfl, by decide, by decide,
   C4_failures_recorded genMix2 sampleState "K" rfl (by decide) (by decide)⟩

/-- C8: with a missing API key, or an empty unit title, or an empty topics
field, `handleSubmit` issues no generation call and leaves the generated
notes, the topic contents and the completed sections unchanged. -/
theorem C8_guards_no_call
    (gen : Nat → String → Except String String) (s : NotesWriterState)
    (h : s.geminiKey = none ∨ s.formData.unitTitle = "" ∨ s.formData.topics = "") :
    (handleSubmit gen s).2 = []
  ∧ (handleSubmit gen s).1.generatedNotes = s.generatedNotes
  ∧ (handleSubmit gen s).1.topicContents = s.topicContents
  ∧ (handleSubmit gen s).1.completedSections = s.completedSections := by
  rcases h with h | h
  · simp [handleSubmit, h]
  · cases hk : s.geminiKey with
    | none => simp [handleSubmit, hk]
    | some k => rcases h with h | h <;> simp [handleSubmit, hk, h]

/-- Witness for C8: empty unit title with prior content in the state. -/
theorem C8_witness :
    ((⟨some "K", ⟨"", "a"⟩, "old", [⟨"t", "c"⟩], false, false, none, ["t"], false, false, []⟩ :
        NotesWriterState).geminiKey = none ∨
     (⟨some "K", ⟨"", "a"⟩, "old", [⟨"t", "c"⟩], false, false, none, ["t"], false, false, []⟩ :
        NotesWriterState).formData.unitTitle = "" ∨
     (⟨some "K", ⟨"", "a"⟩, "old", [⟨"t", "c"⟩], false, false, none, ["t"], false, false, []⟩ :
        NotesWriterState).formData.topics = "") ∧
    ((handleSubmit genConst
        ⟨some "K", ⟨"", "a"⟩, "old", [⟨"t", "c"⟩], false, false, none, ["t"], false, false, []⟩).2 = []
     ∧ (handleSubmit genConst
        ⟨some "K", ⟨"", "a"⟩, "old", [⟨"t", "c"⟩], false, false, none, ["t"], false, false, []⟩).1.generatedNotes = "old"
     ∧ (handleSubmit genConst
        ⟨some "K", ⟨"", "a"⟩, "old", [⟨"t", "c"⟩], false, false, none, ["t"], false, false, []⟩).1.topicContents = [⟨"t", "c"⟩]
     ∧ (handleSubmit genConst
        ⟨some "K", ⟨"", "a"⟩, "old", [⟨"t", "c"⟩], false, false, none, ["t"], false, false, []⟩).1.completedSections = ["t"]) :=
  ⟨Or.inr (Or.inl rfl),
   C8_guards_no_call genConst _ (Or.inr (Or.inl rfl))⟩

/-- C9: the topics the driver processes are exactly the comma-split,
trimmed, non-empty fragments of the topics field: the issued prompts are
one per such fragment in order, every processed topic is a non-empty
string, and e.g. `"a,,b,"` is processed as exactly `["a", "b"]`. -/
theorem C9_topic_splitting
    (gen : Nat → String → Except String String) (s : NotesWriterState) (k : String)
    (hk : s.geminiKey = some k) (hu : s.formData.unitTitle ≠ "")
    (ht : s.formData.topics ≠ "") :
    (handleSubmit gen s).2.filterMap (fun e =>
        match e with
        | GenEvent.issue p => some p
        | GenEvent.complete _ _ => none) =
      (splitTopics s.formData.topics).map
        (fun t => generateTopicPrompt t ⟨s.formData.unitTitle⟩)
  ∧ (∀ t ∈ splitTopics s.formData.topics, t ≠ "")
  ∧ splitTopics "a,,b," = ["a", "b"]
  ∧ splitTopics " a , ,b ," = ["a", "b"] := by
  obtain ⟨he, -, -, -, -, -⟩ := handleSubmit_spec gen s k hk hu ht
  refine ⟨?_, ?_, by decide, by decide⟩
  · rw [he, pairTrace_issues]
    exact enum_map_snd_comp (fun t => generateTopicPrompt t ⟨s.formData.unitTitle⟩)
      (splitTopics s.formData.topics)
  · intro t htm
    simp only [splitTopics, List.mem_filter] at htm
    simpa using htm.2

/-- Witness for C9 at a concrete input. -/
theorem C9_witness :
    sampleState.geminiKey = some "K" ∧ sampleState.formData.unitTitle ≠ "" ∧
      sampleState.formData.topics ≠ "" ∧
    ((handleSubmit genConst sampleState).2.filterMap (fun e =>
        match e with
        | GenEvent.issue p => some p
        | GenEvent.complete _ _ => none) =
      [generateTopicPrompt "a" ⟨"U"⟩, generateTopicPrompt "b" ⟨"U"⟩]
     ∧ (∀ t ∈ splitTopics sampleState.formData.topics, t ≠ "")
     ∧ splitTopics "a,,b," = ["a", "b"]
     ∧ splitTopics " a , ,b ," = ["a", "b"]) :=
  ⟨rfl, by decide, by decide,
   C9_topic_splitting genConst sampleState "K" rfl (by decide) (by decide)⟩

/-- C10: when every generation call fails on a non-empty topic list, the run
still ends on its success path: the notes are just the title heading, the
stored topic contents are empty, the success modal is shown, and its
message reports 0 topics. -/
theorem C10_all_failures_success_path
    (gen : Nat → String → Except String String) (s : NotesWriterState) (k : String)
    (hk : s.geminiKey = some k) (hu : s.formData.unitTitle ≠ "")
    (ht : s.formData.topics ≠ "")
    (hne : splitTopics s.formData.topics ≠ [])
    (hfail : ∀ it ∈ (splitTopics s.formData.topics).enum,
        ∃ m, gen it.1 (generateTopicPrompt it.2 ⟨s.formData.unitTitle⟩) = .error m) :
    (handleSubmit gen s).1.generatedNotes = "# " ++ s.formData.unitTitle ++ "\n"
  ∧ (handleSubmit gen s).1.topicContents = []
  ∧ (handleSubmit gen s).1.showSuccessModal = true
  ∧ successModalMessage (handleSubmit gen s).1 =
      "Your study notes have been successfully generated with 0 topics." := by
  obtain ⟨-, hn, hc, -, -, hsm⟩ := handleSubmit_spec gen s k hk hu ht
  have hps : pairSuccesses gen s.formData.unitTitle
      (splitTopics s.formData.topics).enum = [] := by
    rw [pairSuccesses_eq_inline]
    rw [List.filterMap_eq_nil_iff]
    intro it hit
    obtain ⟨m, hm⟩ := hfail it hit
    simp [hm]
  have htc : (handleSubmit gen s).1.topicContents = [] := by rw [hc, hps]
  refine ⟨?_, htc, hsm, ?_⟩
  · rw [hn, hps]
    rw [show String.join (List.map topicFragment []) = "" from rfl, String.append_empty]
  · rw [successModalMessage, htc]
    rfl

/-- Witness for C10: both topics fail. -/
theorem C10_witness :
    sampleState.geminiKey = some "K" ∧ sampleState.formData.unitTitle ≠ "" ∧
      sampleState.formData.topics ≠ "" ∧
    splitTopics sampleState.formData.topics ≠ [] ∧
    ((handleSubmit genFail sampleState).1.generatedNotes = "# U\n"
     ∧ (handleSubmit genFail sampleState).1.topicContents = []
     ∧ (handleSubmit genFail sampleState).1.showSuccessModal = true
     ∧ successModalMessage (handleSubmit genFail sampleState).1 =
        "Your study notes have been successfully generated with 0 topics.") :=
  ⟨rfl, by decide, by decide, by decide,
   C10_all_failures_success_path genFail sampleState "K" rfl (by decide) (by decide)
     (by decide) (fun it _ => ⟨"boom", rfl⟩)⟩

/-- C5 counterexample: the claim that both tool forms persist across a
reload fails for the GitHub-profile form — writing a title and reloading
yields the empty initial record, not the written state. -/
theorem C5_counterexample :
    ghMountForm (ghSetForm ⟨none, none, none⟩
        ⟨"x", "", "", "", "", "", "", "", "", "", ""⟩).2 ≠
      ⟨"x", "", "", "", "", "", "", "", "", "", ""⟩ := by
  decide

/-- C5 (amended): only the notes-writer form state is session-persisted —
the form state written by one page load is the initial form state after a
reload in the same session; the GitHub-profile form is plain in-memory
`useState` and every reload observes the empty initial record. -/
theorem C5_amended_session_persistence :
    (∀ (st : SessionStore) (v : FormData),
        notesWriterMountForm (notesWriterSetForm st v).2 = v)
  ∧ (∀ (st : SessionStore) (v : GHFormData),
        ghMountForm (ghSetForm st v).2 = ghFormInit) :=
  ⟨fun _ _ => rfl, fun _ _ => rfl⟩

/-- C6: the prompt builders are pure functions of their arguments — two
invocations of `generateTopicPrompt` agreeing on the topic and the context
unit title yield equal prompts, and two invocations of `generatePrompt`
agreeing on all form fields yield equal prompts. -/
theorem C6_prompt_builders_pure :
    (∀ (t₁ t₂ : String) (c₁ c₂ : UnitContext),
        t₁ = t₂ → c₁.unitTitle = c₂.unitTitle →
        generateTopicPrompt t₁ c₁ = generateTopicPrompt t₂ c₂)
  ∧ (∀ d₁ d₂ : GHFormData,
        d₁.title = d₂.title → d₁.subtitle = d₂.subtitle →
        d₁.programmingSkills = d₂.programmingSkills →
        d₁.frontendSkills = d₂.frontendSkills →
        d₁.backendSkills = d₂.backendSkills →
        d₁.databaseSkills = d₂.databaseSkills →
        d₁.softwareSkills = d₂.softwareSkills →
        d₁.work = d₂.work → d₁.projects = d₂.projects →
        d₁.githubLink = d₂.githubLink → d₁.leetcodeLink = d₂.leetcodeLink →
        generatePrompt d₁ = generatePrompt d₂) := by
  constructor
  · intro t₁ t₂ c₁ c₂ hT hU
    simp [generateTopicPrompt, hT, hU]
  · intro d₁ d₂ h1 h2 h3 h4 h5 h6 h7 h8 h9 h10 h11
    simp [generatePrompt, h1, h2, h3, h4, h5, h6, h7, h8, h9, h10, h11]

/-- Witness for C6 at concrete inputs. -/
theorem C6_witness :
    generateTopicPrompt "Arrays" ⟨"DSA"⟩ = generateTopicPrompt "Arrays" ⟨"DSA"⟩
  ∧ generatePrompt ghFormInit = generatePrompt ghFormInit :=
  ⟨C6_prompt_builders_pure.1 "Arrays" "Arrays" ⟨"DSA"⟩ ⟨"DSA"⟩ rfl rfl,
   C6_prompt_builders_pure.2 ghFormInit ghFormInit rfl rfl rfl rfl rfl rfl rfl rfl rfl
     rfl rfl⟩

/-- C7: the preview document embeds the stored markdown as a JSON string
literal whose decoding recovers the stored string exactly, and the document
contains the copy control and the print control with their handlers. -/
theorem C7_preview_roundtrip_and_controls (s : NotesWriterState) :
    (∃ p q : String, handlePreviewInNewTab s =
        p ++ jsonStringify s.generatedNotes ++ q)
  ∧ parseJsonLiteral (jsonStringify s.generatedNotes) = some s.generatedNotes
  ∧ (∃ p q r : String, handlePreviewInNewTab s =
        p ++ previewCopyButton ++ q ++ previewPrintButton ++ r)
  ∧ (∃ p q : String, handlePreviewInNewTab s = p ++ previewExecCopy ++ q)
  ∧ (∃ p q : String, handlePreviewInNewTab s = p ++ previewWindowPrint ++ q) := by
  refine ⟨⟨previewDocPart1 ++
      (if s.formData.unitTitle = "" then "Study Notes Preview" else s.formData.unitTitle) ++
      previewDocPart2a ++ previewCopyButton ++ previewDocPart2b ++ previewPrintButton ++
      previewDocPart2c,
      previewDocPart3a ++ previewExecCopy ++ previewDocPart3b ++ previewWindowPrint ++
      previewDocPart3c, ?_⟩,
    parseJsonLiteral_stringify s.generatedNotes,
    ⟨previewDocPart1 ++
      (if s.formData.unitTitle = "" then "Study Notes Preview" else s.formData.unitTitle) ++
      previewDocPart2a, previewDocPart2b,
      previewDocPart2c ++ jsonStringify s.generatedNotes ++ previewDocPart3a ++
      previewExecCopy ++ previewDocPart3b ++ previewWindowPrint ++ previewDocPart3c, ?_⟩,
    ⟨previewDocPart1 ++
      (if s.formData.unitTitle = "" then "Study Notes Preview" else s.formData.unitTitle) ++
      previewDocPart2a ++ previewCopyButton ++ previewDocPart2b ++ previewPrintButton ++
      previewDocPart2c ++ jsonStringify s.generatedNotes ++ previewDocPart3a,
      previewDocPart3b ++ previewWindowPrint ++ previewDocPart3c, ?_⟩,
    ⟨previewDocPart1 ++
      (if s.formData.unitTitle = "" then "Study Notes Preview" else s.formData.unitTitle) ++
      previewDocPart2a ++ previewCopyButton ++ previewDocPart2b ++ previewPrintButton ++
      previewDocPart2c ++ jsonStringify s.generatedNotes ++ previewDocPart3a ++
      previewExecCopy ++ previewDocPart3b, previewDocPart3c, ?_⟩⟩ <;>
  simp [handlePreviewInNewTab, previewDocument, String.append_assoc]
